import Mathlib

set_option maxRecDepth 8000

/-
Shallow embedding of the hardware-offload cost-decision engine found in
src/src/backend/tcop/postgres.c (functions hw_strcmp, hw_queryhashmap,
hw_ophashmap, hw_aggrhashmap, hw_filterhashmap, extract_operation_info,
get_query_num, get_data_num, get_hw_expectation_time, the decision block of
sw_stack_for_hw, polyfit, polyval, polyval_multi, get_avg_error,
adjust_range, add_new_data).

Modelling conventions:
 - C `double` values are modelled as exact rationals (ℚ).  Division by zero
   yields 0 in ℚ (the C code produces inf/NaN there; the claims settled on
   such paths depend only on which array cells are written, not on the
   IEEE payloads, and every concrete counterexample below is checked to not
   depend on a division by zero unless explicitly discussed).
 - `int` / `size_t` arithmetic is ℕ or ℤ with C's truncating division made
   explicit (all quantities involved are nonnegative in the modelled paths).
 - C strings are Lean `String`s; `hw_strcmp(a,b)` in the source walks `a`
   and returns 1 exactly when the two C strings are equal, so it is
   modelled as string equality.
 - token arrays are Lean lists; a C read at a fixed offset past the end
   of the token array (which the source performs without a bounds check)
   is modelled by `List.getD` with default "".  The ARRAY-argument scans
   of extract_operation_info are a different matter: in the source they
   are unbounded and keep reading the memory beyond the token array until
   a FROM/ARRAY token appears, so they are modelled twice — by the
   list-bounded array_arg_len the extractor uses, and by the unbounded
   scan over an explicit beyond-the-array memory oracle (word_at /
   array_scan_halts); array_scan_within proves the two agree whenever a
   terminator lies within the token array, and the C9 counterexample
   shows the source scan diverging when none does.
-/

-- `#define` constants, postgres.c lines 235-305.
def NONE : ℕ := 0
def MAX_NAME_LEN : ℕ := 30
-- query cluster ids
def SELECT : ℕ := 1
def FROM : ℕ := 2
def WHERE : ℕ := 3
def GROUP_BY : ℕ := 4
def ORDER_BY : ℕ := 5
def AS : ℕ := 6
-- HW operation ids (lines 256-261).  NOTE: line 261 defines FOREST as 6,
-- but line 303 REdefines the macro FOREST to 2 (the dataset id, "9-16"
-- columns).  Every function modelled here appears after line 303, so in
-- the compiled code the token FOREST denotes 2 there; gcc emits a
-- redefinition warning and uses the later definition.
def LINREGR : ℕ := 1
def LOGREGR : ℕ := 2
def SVM : ℕ := 3
def MLP : ℕ := 4
def TREE : ℕ := 5
def FOREST_line261 : ℕ := 6
-- aggregation operation ids
def COUNT : ℕ := 1
def MAX : ℕ := 2
def MIN : ℕ := 3
def AVG : ℕ := 4
def SUM : ℕ := 5
-- filtering operation ids
def LARGER : ℕ := 1
def LARGERSAME : ℕ := 2
def SAME : ℕ := 3
def SMALLER : ℕ := 4
def SMALLERSAME : ℕ := 5
-- query species (lines 286-296)
def Q1 : ℤ := 0
def Q2 : ℤ := 1
def Q3 : ℤ := 2
def Q4 : ℤ := 3
def Q5 : ℤ := 4
def Q6 : ℤ := 5
def Q7 : ℤ := 6
def Q8 : ℤ := 7
def Q9 : ℤ := 8
def Q10 : ℤ := 9
def Q11 : ℤ := 10
-- dataset ids (lines 302-305); line 303 is the redefinition of FOREST.
def HIGGS : ℕ := 1
def FOREST : ℕ := 2
def WILT : ℕ := 4
def HABERMAN : ℕ := 8

def ADJ_MIN_DATANUM : ℕ := 3
def EXEC_ORDER : ℕ := 3

/-
hw_strcmp (lines 538-551) walks str1 until its terminator, breaking at the
first position where the strings differ, and maps "no difference" to 1 and
any difference to 0, i.e. it returns 1 exactly when the two strings are
equal.  It is modelled as boolean string equality.
-/
def hw_strcmp (str1 str2 : String) : Bool := str1 == str2

-- hw_queryhashmap, lines 554-570: any non-keyword token keeps the previous
-- cluster.
def hw_queryhashmap (str : String) (query_cluster : ℕ) : ℕ :=
  if hw_strcmp str "SELECT" then SELECT
  else if hw_strcmp str "FROM" then FROM
  else if hw_strcmp str "WHERE" then WHERE
  else if hw_strcmp str "GROUP_BY" then GROUP_BY
  else if hw_strcmp str "ORDER_BY" then ORDER_BY
  else if hw_strcmp str "AS" then AS
  else query_cluster

/-
hw_ophashmap, lines 572-586.  The `return FOREST` on line 585 compiles to
the value 2 (= LOGREGR) because of the macro redefinition on line 303.
The C function has no else branch: falling off the end is undefined; on the
target toolchain the returned register holds the result of the last
hw_strcmp, which is 0 (= NONE) for a non-matching string, and
extract_operation_info relies on that value to branch to the aggregate
check.  The model returns NONE for unrecognized strings.
-/
def hw_ophashmap (str : String) : ℕ :=
  if hw_strcmp str "madlib.linregr_predict" then LINREGR
  else if hw_strcmp str "madlib.logregr_predict_prob" then LOGREGR
  else if hw_strcmp str "madlib.svm_predict" then SVM
  else if hw_strcmp str "madlib.mlp_predict" then MLP
  else if hw_strcmp str "madlib.tree_predict" then TREE
  else if hw_strcmp str "madlib.forest_predict" then FOREST
  else NONE

-- hw_aggrhashmap, lines 588-602
def hw_aggrhashmap (str : String) : ℕ :=
  if hw_strcmp str "COUNT" then COUNT
  else if hw_strcmp str "MAX" then MAX
  else if hw_strcmp str "MIN" then MIN
  else if hw_strcmp str "AVG" then AVG
  else if hw_strcmp str "SUM" then SUM
  else 0

-- hw_filterhashmap, lines 604-618
def hw_filterhashmap (str : String) : ℕ :=
  if hw_strcmp str ">" then LARGER
  else if hw_strcmp str ">=" then LARGERSAME
  else if hw_strcmp str "==" then SAME
  else if hw_strcmp str "<" then SMALLER
  else if hw_strcmp str "<=" then SMALLERSAME
  else 0

/-
struct operation_info, lines 505-532.  The filter threshold is stored as
the raw token (the source applies atof to word_array[i+3]; no settled
claim depends on the parsed numeric value).
-/
structure operation_info where
  hw_support : Bool
  hw_operation : ℕ
  hw_query_num : ℤ
  data_table_name : Option String
  model_table_name : Option String
  model_col_len : ℕ
  model_col_name : List String
  data_col_len : ℕ
  data_col_name : List String
  id_col_name : Option String
  output_table_name : Option String
  filter_flag : Bool
  filter_operation : ℕ
  filter_table_name : Option String
  filter_col_name : Option String
  filter_value : String
  aggr_flag : Bool
  aggr_operation : ℕ
  aggr_table_name : Option String
  aggr_table_col : Option String
deriving Repr, DecidableEq

-- init_operation_info, lines 622-650
def init_operation_info : operation_info :=
  ⟨false, NONE, -1, none, none, 0, [], 0, [], none, none,
   false, NONE, none, none, "", false, NONE, none, none⟩

-- get_query_num, lines 916-957.  The switch has no FOREST case; an
-- operation value produced by hw_ophashmap for "madlib.forest_predict" is
-- 2 = LOGREGR (macro redefinition, see above) and lands in the LOGREGR
-- case.  Any unmatched operation, or hw_support = false, leaves -1.
def get_query_num (info : operation_info) : ℤ :=
  if info.hw_support then
    if info.hw_operation = LINREGR then
      if info.filter_flag && info.aggr_flag then Q4
      else if info.filter_flag then Q2
      else if info.aggr_flag then Q3
      else Q1
    else if info.hw_operation = LOGREGR then
      if info.filter_flag && info.aggr_flag then Q8
      else if info.filter_flag then Q6
      else if info.aggr_flag then Q7
      else Q5
    else if info.hw_operation = SVM then Q9
    else if info.hw_operation = MLP then Q10
    else if info.hw_operation = TREE then Q11
    else -1
  else -1

-- An operation profile as the classifier sees it: only hw_support,
-- hw_operation, filter_flag and aggr_flag are read by get_query_num.
def mk_profile (support : Bool) (op : ℕ) (f a : Bool) : operation_info :=
  ⟨support, op, -1, none, none, 0, [], 0, [], none, none,
   f, NONE, none, none, "", a, NONE, none, none⟩

-- The six recognized inference-function names, lines 574-585.
def madlib_op_names : List String :=
  ["madlib.linregr_predict", "madlib.logregr_predict_prob",
   "madlib.svm_predict", "madlib.mlp_predict",
   "madlib.tree_predict", "madlib.forest_predict"]

/--
C1.  For every operation profile with supported = true whose operation is
one of the 6 defined kinds (i.e. the value hw_ophashmap assigns to one of
the six recognized madlib function names), get_query_num returns one of
the 11 classes Q1..Q11 (integers 0..10) and never the error value -1, and
within each regression operation (LINREGR, LOGREGR) the four
filter/aggregate combinations yield four pairwise distinct classes.
(The compiled operation value for "madlib.forest_predict" is 2 = LOGREGR
because of the FOREST macro redefinition on line 303, so such profiles
land in the LOGREGR quadrant Q5-Q8 rather than having no class.)
-/
theorem C1_classifier_total (name : String) (hname : name ∈ madlib_op_names)
    (f a : Bool) :
    (0 ≤ get_query_num (mk_profile true (hw_ophashmap name) f a) ∧
      get_query_num (mk_profile true (hw_ophashmap name) f a) ≤ 10 ∧
      get_query_num (mk_profile true (hw_ophashmap name) f a) ≠ -1) ∧
    (∀ op, op = LINREGR ∨ op = LOGREGR →
      ∀ f1 a1 f2 a2 : Bool,
        get_query_num (mk_profile true op f1 a1) =
          get_query_num (mk_profile true op f2 a2) →
        f1 = f2 ∧ a1 = a2) := by
  constructor
  · fin_cases hname <;> cases f <;> cases a <;> simp <;> decide
  · intro op hop f1 a1 f2 a2
    rcases hop with h | h <;> subst h <;>
      cases f1 <;> cases a1 <;> cases f2 <;> cases a2 <;> decide

/-- Witness for C1 at a concrete input: the RandomForest profile (no
filter, no aggregate) classifies to Q5 ∈ [0,10]. -/
theorem C1_classifier_total_witness :
    ("madlib.forest_predict" ∈ madlib_op_names) ∧
    (0 ≤ get_query_num (mk_profile true (hw_ophashmap "madlib.forest_predict") false false) ∧
      get_query_num (mk_profile true (hw_ophashmap "madlib.forest_predict") false false) ≤ 10 ∧
      get_query_num (mk_profile true (hw_ophashmap "madlib.forest_predict") false false) ≠ -1) := by
  refine ⟨by decide, (C1_classifier_total "madlib.forest_predict" (by decide) false false).1⟩

/-
Tokenization in sw_stack_for_hw, lines 2225-2232: strtok with the
delimiter set " ,()[];\n'" — runs of delimiters are skipped, so tokens are
the maximal delimiter-free substrings.  `strtok_split` is the generic
splitter (also used for the "." splitting of table.column tokens).
-/
def hw_delims : List Char := [' ', ',', '(', ')', '[', ']', ';', '\n', '\'']

def strtok_split (delims : List Char) : List Char → List Char → List String
  | [], acc => if acc.isEmpty then [] else [String.mk acc.reverse]
  | c :: cs, acc =>
      if c ∈ delims then
        if acc.isEmpty then strtok_split delims cs []
        else String.mk acc.reverse :: strtok_split delims cs []
      else strtok_split delims cs (c :: acc)

def hw_tokenize (s : String) : List String := strtok_split hw_delims s.data []

-- strtok(buf, ".") splitting of a table.column token (lines 824-841 and
-- 871-888): part 0 goes to the table name, part 1 to the column name,
-- further parts are ignored.
def strtok_dot (s : String) : List String := strtok_split ['.'] s.data []

/-
The ARRAY[...] element scan, lines 742-745 and 769-772: counts tokens from
the given position until the next FROM or ARRAY token.  The C loop has NO
bound: when no FROM/ARRAY token follows within the token array it keeps
reading the memory past the array (no bounds check in the source) and
does not terminate unless that memory happens to hold such a token.  This
list-bounded version computes the source scan's count in the regime
where the scan stays within the token array: array_scan_within proves
that whenever a FROM/ARRAY terminator occurs in the token list at or
after the start position, the unbounded scan halts after exactly
array_arg_len reads for every content of the memory beyond the array,
and C9_counterexample settles the divergent regime.
-/
def array_arg_len : List String → ℕ
  | [] => 0
  | w :: rest =>
      if hw_strcmp w "FROM" || hw_strcmp w "ARRAY" then 0 else array_arg_len rest + 1

-- A token that ends an ARRAY-argument scan (the while conditions of
-- lines 742-743 and 769-770 become false exactly on these).
def arr_terminator (s : String) : Bool :=
  hw_strcmp s "FROM" || hw_strcmp s "ARRAY"

/-
Memory as the unbounded ARRAY-argument scans see it: an index inside the
token array reads word_array[i]; an index past the end reads whatever
memory follows the array, abstracted by the `beyond` oracle (the source
performs these reads with no bounds check).
-/
def word_at (words : List String) (beyond : ℕ → String) (i : ℕ) : String :=
  if i < words.length then words.getD i "" else beyond (i - words.length)

/-
Halting condition of the unbounded ARRAY-argument scan started at token
position `start` (the source reads word_array[i + 1 + arr_len] with
arr_len counting up from 0): the while loop exits only upon reading a
FROM or ARRAY token, so the scan terminates exactly when some position
at or after `start` holds one.
-/
def array_scan_halts (words : List String) (beyond : ℕ → String)
    (start : ℕ) : Prop :=
  ∃ n : ℕ, arr_terminator (word_at words beyond (start + n)) = true

/-
One iteration of the clause-cluster loop of extract_operation_info
(lines 712-912), given the cluster value already updated for the current
token.  Returns `.inl info` for the source's early `return` statements and
`.inr (i', info')` to continue with the next token index.  Token reads at
i+1, i+2, ... beyond the end of the array (unchecked in the source) are
modelled by `List.getD _ ""`.
-/
def extract_step (words : List String) (i : ℕ) (info : operation_info)
    (cluster : ℕ) : operation_info ⊕ (ℕ × operation_info) :=
  if cluster = NONE then
    -- lines 715-722
    let info' := { info with hw_support := false }
    if i = 0 then .inl info' else .inr (i + 1, info')
  else if cluster = SELECT then
    -- lines 723-849
    let query_check := hw_ophashmap (words.getD (i + 1) "")
    if query_check ≠ NONE then
      let info1 := { info with hw_support := true, hw_operation := query_check }
      if query_check = LINREGR ∨ query_check = LOGREGR then
        -- regression argument lists, lines 733-790
        let i2 := i + 2
        let m :=
          if hw_strcmp (words.getD i2 "") "ARRAY" then
            let n := array_arg_len (words.drop (i2 + 1))
            ((words.drop (i2 + 1)).take n, n, i2 + 1 + n)
          else if hw_strcmp (words.getD i2 "") "coef" then
            ([words.getD i2 ""], 1, i2 + 1)
          else (info1.model_col_name, info1.model_col_len, i2)
        let i3 := m.2.2
        let d :=
          if hw_strcmp (words.getD i3 "") "ARRAY" then
            let n := array_arg_len (words.drop (i3 + 1))
            ((words.drop (i3 + 1)).take n, n, i3 + 1 + n)
          else if hw_strcmp (words.getD i3 "") "coef" then
            ([words.getD i3 ""], 1, i3 + 1)
          else (info1.data_col_name, info1.data_col_len, i3)
        .inr (d.2.2,
          { info1 with model_col_name := m.1, model_col_len := m.2.1,
                       data_col_name := d.1, data_col_len := d.2.1 })
      else if query_check = SVM ∨ query_check = MLP ∨ query_check = TREE then
        -- fixed token offsets, lines 791-812
        let info2 :=
          { info1 with
              model_table_name := some (words.getD (i + 2) ""),
              data_table_name := some (words.getD (i + 3) ""),
              id_col_name := if query_check = SVM ∨ query_check = MLP then
                  some (words.getD (i + 4) "") else info1.id_col_name,
              output_table_name := if query_check = SVM ∨ query_check = MLP then
                  some (words.getD (i + 5) "") else some (words.getD (i + 4) "") }
        .inr (i + 6 + (if query_check = MLP then 1 else 0), info2)
      else
        -- line 813-815 (not reachable for values hw_ophashmap produces)
        .inr (i + 1, info1)
    else
      let aggr_check := hw_aggrhashmap (words.getD (i + 1) "")
      if aggr_check ≠ 0 then
        -- aggregate operation, lines 816-843
        let parts := strtok_dot (words.getD (i + 2) "")
        .inr (i + 3,
          { info with aggr_flag := true, aggr_operation := aggr_check,
                      aggr_table_name := parts.get? 0,
                      aggr_table_col := parts.get? 1 })
      else
        -- unsupported function name: early return, lines 844-847
        .inl { info with hw_support := false }
  else if cluster = FROM then
    -- lines 850-864
    if info.hw_support &&
        (decide (info.hw_operation = LINREGR) || decide (info.hw_operation = LOGREGR)) then
      .inr (i + 3,
        { info with model_table_name := some (words.getD (i + 1) ""),
                    data_table_name := some (words.getD (i + 2) "") })
    else
      .inr (i + 1, info)
  else if cluster = WHERE then
    -- lines 865-895
    let parts := strtok_dot (words.getD (i + 1) "")
    .inr (i + 4,
      { info with filter_flag := true,
                  filter_table_name := parts.get? 0,
                  filter_col_name := parts.get? 1,
                  filter_operation := hw_filterhashmap (words.getD (i + 2) ""),
                  filter_value := words.getD (i + 3) "" })
  else if cluster = GROUP_BY then
    -- lines 896-899: i is not advanced
    .inr (i, { info with hw_support := false })
  else if cluster = ORDER_BY then
    -- lines 900-903: i is not advanced
    .inr (i, { info with hw_support := false })
  else
    -- default, lines 904-906 (covers AS)
    .inr (i + 1, info)

/-
The clause-cluster loop, lines 712-912.  `budget` is 21 - inhib: the body
runs while i < word_size, inhib is incremented after each body execution
and the loop breaks once inhib exceeds 20, so the body runs at most 21
times.  The result carries the number of body executions.
-/
def extract_loop (words : List String) : ℕ → ℕ → operation_info → ℕ →
    operation_info × ℕ
  | 0, _, info, _ => (info, 0)
  | budget + 1, i, info, cluster =>
      if i < words.length then
        let cluster' := hw_queryhashmap (words.getD i "") cluster
        match extract_step words i info cluster' with
        | .inl fin => (fin, 1)
        | .inr (i', info') =>
            let r := extract_loop words budget i' info' cluster'
            (r.1, r.2 + 1)
      else (info, 0)

-- extract_operation_info, lines 707-914 (profile plus iteration count).
def extract_operation_info (words : List String) : operation_info × ℕ :=
  extract_loop words 21 0 init_operation_info 0

-- The operation profile sw_stack_for_hw builds for a raw query string
-- (tokenization at lines 2225-2232 followed by extract_operation_info).
def sw_profile_of_query (q : String) : operation_info :=
  (extract_operation_info (hw_tokenize q)).1

theorem extract_loop_count_le (words : List String) :
    ∀ (budget i : ℕ) (info : operation_info) (cluster : ℕ),
      (extract_loop words budget i info cluster).2 ≤ budget := by
  intro budget
  induction budget with
  | zero => intro i info cluster; simp [extract_loop]
  | succ b ih =>
      intro i info cluster
      simp only [extract_loop]
      split
      · rcases h : extract_step words i info
            (hw_queryhashmap (words.getD i "") cluster) with fin | c
        · simp [h]
        · simpa [h] using ih c.1 c.2 (hw_queryhashmap (words.getD i "") cluster)
      · simp

theorem array_arg_len_first :
    ∀ (l : List String) (j : ℕ), j < l.length →
      arr_terminator (l.getD j "") = true →
      array_arg_len l ≤ j ∧
      arr_terminator (l.getD (array_arg_len l) "") = true ∧
      ∀ n, n < array_arg_len l → arr_terminator (l.getD n "") = false := by
  intro l
  induction l with
  | nil => intro j hj _; simp at hj
  | cons w rest ih =>
      intro j hj hterm
      by_cases hw : arr_terminator w = true
      · have hcond : (hw_strcmp w "FROM" || hw_strcmp w "ARRAY") = true := hw
        have h0 : array_arg_len (w :: rest) = 0 := by
          simp [array_arg_len, hcond]
        rw [h0]
        refine ⟨Nat.zero_le _, by simpa using hw, ?_⟩
        intro n hn
        omega
      · have hwb : arr_terminator w = false := by
          revert hw; cases arr_terminator w <;> simp
        have hcond : (hw_strcmp w "FROM" || hw_strcmp w "ARRAY") = false := hwb
        have h1 : array_arg_len (w :: rest) = array_arg_len rest + 1 := by
          simp [array_arg_len, hcond]
        cases j with
        | zero =>
            exfalso
            have hx : arr_terminator w = true := by simpa using hterm
            rw [hwb] at hx
            exact Bool.false_ne_true hx
        | succ j2 =>
            have hj2 : j2 < rest.length := by
              simpa [Nat.succ_lt_succ_iff] using hj
            have hterm2 : arr_terminator (rest.getD j2 "") = true := by
              simpa using hterm
            obtain ⟨hle, hat, hbefore⟩ := ih j2 hj2 hterm2
            rw [h1]
            refine ⟨by omega, by simpa using hat, ?_⟩
            intro n hn
            cases n with
            | zero => simpa using hwb
            | succ m =>
                have hm : m < array_arg_len rest := by omega
                simpa using hbefore m hm

theorem getD_drop_eq (words : List String) (start m : ℕ) :
    (words.drop start).getD m "" = words.getD (start + m) "" := by
  rw [List.getD_eq_getElem?_getD, List.getD_eq_getElem?_getD,
    List.getElem?_drop]

theorem word_at_within (words : List String) (beyond : ℕ → String) {i : ℕ}
    (h : i < words.length) : word_at words beyond i = words.getD i "" := by
  unfold word_at
  rw [if_pos h]

/--
Whenever a FROM/ARRAY terminator lies within the token array at or after
the scan start, the source's unbounded ARRAY-argument scan halts — for
every content of the memory beyond the token array — and it does so after
exactly array_arg_len (words.drop start) reads: no earlier position holds
a terminator and that position does.
-/
theorem array_scan_within (words : List String) (beyond : ℕ → String)
    (start j : ℕ) (hj : start + j < words.length)
    (hterm : arr_terminator (words.getD (start + j) "") = true) :
    array_scan_halts words beyond start ∧
    arr_terminator (word_at words beyond
      (start + array_arg_len (words.drop start))) = true ∧
    ∀ n, n < array_arg_len (words.drop start) →
      arr_terminator (word_at words beyond (start + n)) = false := by
  have hlen : j < (words.drop start).length := by
    rw [List.length_drop]; omega
  have hterm2 : arr_terminator ((words.drop start).getD j "") = true := by
    rw [getD_drop_eq]; exact hterm
  obtain ⟨hle, hat, hbefore⟩ := array_arg_len_first (words.drop start) j hlen hterm2
  have hLlt : start + array_arg_len (words.drop start) < words.length := by
    omega
  have hat2 : arr_terminator (word_at words beyond
      (start + array_arg_len (words.drop start))) = true := by
    rw [word_at_within words beyond hLlt, ← getD_drop_eq]
    exact hat
  refine ⟨⟨array_arg_len (words.drop start), hat2⟩, hat2, ?_⟩
  intro n hn
  have hnlt : start + n < words.length := by omega
  rw [word_at_within words beyond hnlt, ← getD_drop_eq]
  exact hbefore n hn

/--
C9 counterexample.  On the 3-token sequence of a truncated regression
query, [SELECT, madlib.linregr_predict, ARRAY], the first clause-cluster
iteration enters the SELECT case with a recognized regression operation
and an ARRAY token at position 2 (first conjunct: exactly the guards
that route lines 723-745 into the ARRAY-argument scan, which then starts
reading at position i + 1 + 0 = 3), and that scan's while loop never
exits: every position at or after 3 lies past the token array, and with
the memory beyond the array holding no FROM/ARRAY token (here: empty
strings, a realizable memory state) the halting condition fails for
every count — so extract_operation_info does not terminate on this
input, refuting the claim's "terminates for every token sequence, of any
length and content" conjunct.
-/
theorem C9_counterexample :
    (hw_queryhashmap (["SELECT", "madlib.linregr_predict", "ARRAY"].getD 0 "") 0
        = SELECT ∧
      hw_ophashmap (["SELECT", "madlib.linregr_predict", "ARRAY"].getD 1 "")
        = LINREGR ∧
      hw_strcmp (["SELECT", "madlib.linregr_predict", "ARRAY"].getD 2 "") "ARRAY"
        = true) ∧
    ¬ array_scan_halts ["SELECT", "madlib.linregr_predict", "ARRAY"]
        (fun _ => "") 3 := by
  constructor
  · exact ⟨by decide, by decide, by decide⟩
  · rintro ⟨n, hn⟩
    have hge : ¬ (3 + n <
        (["SELECT", "madlib.linregr_predict", "ARRAY"] : List String).length) := by
      simp only [List.length_cons, List.length_nil]
      omega
    unfold word_at at hn
    rw [if_neg hge] at hn
    have hn2 : arr_terminator "" = true := hn
    exact absurd hn2 (by decide)

/--
C9 amended.  The iteration cap is faithful: the clause-cluster loop body
of extract_operation_info runs at most 21 times on every token sequence
— the source increments `inhib` after every body execution and breaks
once it exceeds 20 — including on inputs where the token index does not
advance (GROUP_BY / ORDER_BY clusters).  The unconditional-termination
conjunct is false on the code (see the counterexample) and is weakened
to the regime in which the source does terminate: whenever a FROM or
ARRAY terminator lies within the token array at or after an
ARRAY-argument scan's start position, the unbounded scan halts — for
every content of the memory beyond the token array — after exactly
array_arg_len (words.drop start) reads, the count the model's extractor
uses.
-/
theorem C9_amended_iteration_cap (words : List String) :
    (extract_operation_info words).2 ≤ 21 ∧
    (∀ (beyond : ℕ → String) (start j : ℕ),
      start + j < words.length →
      arr_terminator (words.getD (start + j) "") = true →
      array_scan_halts words beyond start ∧
      arr_terminator (word_at words beyond
        (start + array_arg_len (words.drop start))) = true ∧
      ∀ n, n < array_arg_len (words.drop start) →
        arr_terminator (word_at words beyond (start + n)) = false) :=
  ⟨extract_loop_count_le words 21 0 init_operation_info 0,
   fun beyond start j hj ht => array_scan_within words beyond start j hj ht⟩

/-- Witness for the amended C9 theorem at a concrete input: the cap holds
on the token list [x, a, b, FROM], and the scan started at position 1
halts at the FROM token after array_arg_len = 2 reads for the all-empty
beyond-array memory. -/
theorem C9_amended_iteration_cap_witness :
    (extract_operation_info ["x", "a", "b", "FROM"]).2 ≤ 21 ∧
    (array_scan_halts ["x", "a", "b", "FROM"] (fun _ => "") 1 ∧
      arr_terminator (word_at ["x", "a", "b", "FROM"] (fun _ => "")
        (1 + array_arg_len (["x", "a", "b", "FROM"].drop 1))) = true ∧
      ∀ n, n < array_arg_len (["x", "a", "b", "FROM"].drop 1) →
        arr_terminator (word_at ["x", "a", "b", "FROM"] (fun _ => "") (1 + n))
          = false) :=
  ⟨(C9_amended_iteration_cap ["x", "a", "b", "FROM"]).1,
   (C9_amended_iteration_cap ["x", "a", "b", "FROM"]).2 (fun _ => "") 1 2
     (by decide) (by decide)⟩

theorem hw_queryhashmap_groupby_token (c : ℕ) :
    hw_queryhashmap "GROUP_BY" c = GROUP_BY := by
  simp [hw_queryhashmap, hw_strcmp]

/--
C5 counterexample.  The tokenizer splits the query text on
whitespace/comma/parenthesis/bracket/semicolon/quote, so the SQL clause
`GROUP BY` becomes the two ordinary tokens "GROUP" and "BY", neither of
which is the clause marker "GROUP_BY" that hw_queryhashmap recognizes.
A query that contains `GROUP BY` and a recognized inference function is
therefore still extracted with supported = true, contradicting the claim.
-/
theorem C5_counterexample :
    ("SELECT madlib.svm_predict ( m , d , id , out ) FROM x GROUP BY c ;" =
      "SELECT madlib.svm_predict ( m , d , id , out ) FROM x " ++ "GROUP BY" ++ " c ;") ∧
    (sw_profile_of_query
      "SELECT madlib.svm_predict ( m , d , id , out ) FROM x GROUP BY c ;").hw_support
      = true := by
  exact ⟨rfl, by with_unfolding_all decide⟩

/--
C5 amended.  What the extractor actually reacts to is the single literal
token "GROUP_BY" (the clause marker produced by hw_queryhashmap), not the
SQL text `GROUP BY`: whenever the clause-cluster scan processes a token
position holding "GROUP_BY" with at least one loop iteration of budget
remaining, the extraction ends with supported = false (the GROUP_BY case
clears hw_support and never advances the token index, so the cluster stays
GROUP_BY until the iteration cap fires, and no later iteration can set
hw_support back to true).
-/
theorem C5_amended_groupby_token :
    ∀ (budget : ℕ), 1 ≤ budget →
    ∀ (words : List String) (i : ℕ) (info : operation_info) (cluster : ℕ),
      i < words.length → words.getD i "" = "GROUP_BY" →
      ((extract_loop words budget i info cluster).1).hw_support = false := by
  intro budget
  induction budget with
  | zero => intro h; omega
  | succ b ih =>
      intro _ words i info cluster hi hw
      simp only [extract_loop, if_pos hi, hw, hw_queryhashmap_groupby_token]
      have hstep : extract_step words i info GROUP_BY =
          .inr (i, { info with hw_support := false }) := by
        simp [extract_step, GROUP_BY, NONE, SELECT, FROM, WHERE, ORDER_BY]
      rw [hstep]
      rcases Nat.eq_zero_or_pos b with hb | hb
      · subst hb; simp [extract_loop]
      · simpa using ih hb words i { info with hw_support := false }
          GROUP_BY hi hw

/-- Witness for the amended C5 theorem at a concrete input: the token
list ["GROUP_BY"] processed from the start yields supported = false. -/
theorem C5_amended_groupby_token_witness :
    ((extract_loop ["GROUP_BY"] 21 0 init_operation_info 0).1).hw_support = false := by
  exact C5_amended_groupby_token 21 (by decide) ["GROUP_BY"] 0
    init_operation_info 0 (by decide) (by decide)

/-
The insertion step of add_new_data, lines 3489-3547.  A bucket is a list
of (size, time) pairs standing for the source's parallel arrays
data_num / exec_time with their length variable.  Within a bucket the
loop locates the first entry with size ≥ the new size: an equal size
averages the stored time with the new observation (line 3494), a larger
size shifts the tail right and inserts before it (lines 3497-3503), and
if no entry is ≥ the new size the loop falls off the end of the bucket
and nothing at all is inserted.  (The C arrays have a fixed capacity
DATASIZE = 50 that the insertion does not check; capacity is not
modelled.)
-/
def bucket_insert : List (ℚ × ℚ) → ℚ → ℚ → List (ℚ × ℚ)
  | [], _, _ => []
  | (s, t) :: rest, nd, nt =>
      if nd ≤ s then
        if s = nd then (s, (t + nt) / 2) :: rest
        else (nd, nt) :: (s, t) :: rest
      else (s, t) :: bucket_insert rest nd nt

-- Bucket choice, lines 3489, 3509, 3528: compare against the first
-- element of the mid bucket (data_num2[0]) and of the far bucket
-- (data_num3[0]).
def add_new_data_insert (b1 b2 b3 : List (ℚ × ℚ)) (nd nt : ℚ) :
    List (ℚ × ℚ) × List (ℚ × ℚ) × List (ℚ × ℚ) :=
  if nd ≤ (b2.getD 0 (0, 0)).1 then (bucket_insert b1 nd nt, b2, b3)
  else if nd ≤ (b3.getD 0 (0, 0)).1 then (b1, bucket_insert b2 nd nt, b3)
  else (b1, b2, bucket_insert b3 nd nt)

-- Sorted ascending by size.
def bucket_sorted (l : List (ℚ × ℚ)) : Prop :=
  l.Pairwise (fun p q => p.1 ≤ q.1)

theorem bucket_insert_mem_size {l : List (ℚ × ℚ)} {nd nt : ℚ} :
    ∀ p ∈ bucket_insert l nd nt, p.1 ∈ l.map Prod.fst ∨ p.1 = nd := by
  induction l with
  | nil => simp [bucket_insert]
  | cons hd tl ih =>
      obtain ⟨s, t⟩ := hd
      intro p hp
      simp only [bucket_insert] at hp
      split_ifs at hp with hle heq
      · rcases List.mem_cons.mp hp with rfl | h
        · left; simp
        · left; simp only [List.map_cons, List.mem_cons]
          exact Or.inr (List.mem_map_of_mem Prod.fst h)
      · rcases List.mem_cons.mp hp with rfl | h
        · right; rfl
        · rcases List.mem_cons.mp h with rfl | h'
          · left; simp
          · left; simp only [List.map_cons, List.mem_cons]
            exact Or.inr (List.mem_map_of_mem Prod.fst h')
      · rcases List.mem_cons.mp hp with rfl | h
        · left; simp
        · rcases ih p h with h' | h'
          · left; simp only [List.map_cons, List.mem_cons]; exact Or.inr h'
          · right; exact h'

theorem bucket_insert_sorted {l : List (ℚ × ℚ)} (nd nt : ℚ)
    (hs : bucket_sorted l) : bucket_sorted (bucket_insert l nd nt) := by
  induction l with
  | nil => simp [bucket_insert, bucket_sorted]
  | cons hd tl ih =>
      obtain ⟨s, t⟩ := hd
      rw [bucket_sorted, List.pairwise_cons] at hs
      obtain ⟨hhd, htl⟩ := hs
      simp only [bucket_insert]
      split_ifs with hle heq
      · rw [bucket_sorted, List.pairwise_cons]
        exact ⟨fun q hq => hhd q hq, htl⟩
      · rw [bucket_sorted, List.pairwise_cons]
        constructor
        · intro q hq
          rcases List.mem_cons.mp hq with rfl | h
          · exact hle
          · exact le_trans hle (hhd q h)
        · rw [List.pairwise_cons]
          exact ⟨hhd, htl⟩
      · rw [bucket_sorted, List.pairwise_cons]
        constructor
        · intro q hq
          rcases bucket_insert_mem_size q hq with h | h
          · rcases List.mem_map.mp h with ⟨p, hp, hp1⟩
            rw [← hp1]; exact hhd p hp
          · rw [h]; exact le_of_lt (lt_of_not_le hle)
        · exact ih htl

theorem bucket_insert_dup {l : List (ℚ × ℚ)} {nd : ℚ} (nt : ℚ)
    (hs : bucket_sorted l) (hmem : nd ∈ l.map Prod.fst) :
    ∃ pre t post, l = pre ++ (nd, t) :: post ∧
      bucket_insert l nd nt = pre ++ (nd, (t + nt) / 2) :: post := by
  induction l with
  | nil => simp at hmem
  | cons hd tl ih =>
      obtain ⟨s, t⟩ := hd
      rw [bucket_sorted, List.pairwise_cons] at hs
      obtain ⟨hhd, htl⟩ := hs
      by_cases hle : nd ≤ s
      · have heq : s = nd := by
          simp only [List.map_cons, List.mem_cons] at hmem
          rcases hmem with h | h
          · exact h.symm
          · rcases List.mem_map.mp h with ⟨p, hp, hp1⟩
            exact le_antisymm (hp1 ▸ hhd p hp) hle
        refine ⟨[], t, tl, by simp [heq], ?_⟩
        simp only [bucket_insert, if_pos hle, if_pos heq, List.nil_append]
        rw [heq]
      · have hmem' : nd ∈ tl.map Prod.fst := by
          simp only [List.map_cons, List.mem_cons] at hmem
          rcases hmem with h | h
          · exact absurd (le_of_eq h) hle
          · exact h
        obtain ⟨pre, t', post, hdec, hres⟩ := ih htl hmem'
        refine ⟨(s, t) :: pre, t', post, by simp [hdec], ?_⟩
        simp only [bucket_insert, if_neg hle, hres, List.cons_append]

/--
C6.  For every sample-set state whose three buckets are sorted ascending
by size and every new (size, time) observation, the insertion step of
add_new_data leaves all three buckets sorted ascending (whatever the
insertion position turns out to be), and when the new size equals a size
already present in the bucket the scan selects, that entry's time is
replaced by the average (old + new)/2 at the first occurrence and no
duplicate entry is inserted (the bucket's size sequence is unchanged).
-/
theorem C6_addsample_sorted (b1 b2 b3 : List (ℚ × ℚ)) (nd nt : ℚ)
    (h1 : bucket_sorted b1) (h2 : bucket_sorted b2) (h3 : bucket_sorted b3) :
    (bucket_sorted (add_new_data_insert b1 b2 b3 nd nt).1 ∧
     bucket_sorted (add_new_data_insert b1 b2 b3 nd nt).2.1 ∧
     bucket_sorted (add_new_data_insert b1 b2 b3 nd nt).2.2) ∧
    (∀ l : List (ℚ × ℚ), bucket_sorted l → nd ∈ l.map Prod.fst →
      ∃ pre t post, l = pre ++ (nd, t) :: post ∧
        bucket_insert l nd nt = pre ++ (nd, (t + nt) / 2) :: post) := by
  constructor
  · unfold add_new_data_insert
    split
    · exact ⟨bucket_insert_sorted nd nt h1, h2, h3⟩
    · split
      · exact ⟨h1, bucket_insert_sorted nd nt h2, h3⟩
      · exact ⟨h1, h2, bucket_insert_sorted nd nt h3⟩
  · exact fun l hs hm => bucket_insert_dup nt hs hm

/-- Witness for C6 at a concrete input: inserting size 3 into the state
([(1,10),(4,20)], [(5,30)], [(9,40)]) keeps all buckets sorted, and the
averaging clause is available for any sorted bucket containing size 3. -/
theorem C6_addsample_sorted_witness :
    (bucket_sorted (add_new_data_insert [(1,10),(4,20)] [(5,30)] [(9,40)] 3 7).1 ∧
     bucket_sorted (add_new_data_insert [(1,10),(4,20)] [(5,30)] [(9,40)] 3 7).2.1 ∧
     bucket_sorted (add_new_data_insert [(1,10),(4,20)] [(5,30)] [(9,40)] 3 7).2.2) ∧
    (∀ l : List (ℚ × ℚ), bucket_sorted l → (3:ℚ) ∈ l.map Prod.fst →
      ∃ pre t post, l = pre ++ ((3:ℚ), t) :: post ∧
        bucket_insert l 3 7 = pre ++ ((3:ℚ), (t + 7) / 2) :: post) := by
  exact C6_addsample_sorted [(1,10),(4,20)] [(5,30)] [(9,40)] 3 7
    (by norm_num [bucket_sorted]) (by norm_num [bucket_sorted])
    (by norm_num [bucket_sorted])

theorem bucket_insert_beyond {l : List (ℚ × ℚ)} {nd : ℚ} (nt : ℚ)
    (h : ∀ p ∈ l, p.1 < nd) : bucket_insert l nd nt = l := by
  induction l with
  | nil => rfl
  | cons hd tl ih =>
      obtain ⟨s, t⟩ := hd
      have hs : s < nd := h (s, t) (by simp)
      simp only [bucket_insert, if_neg (not_le.mpr hs)]
      rw [ih (fun p hp => h p (List.mem_cons_of_mem _ hp))]

/--
C10.  If the new observation's size is strictly greater than every size
stored in the far bucket (and beyond the mid bucket's first element, as
any sample set obeying the contiguity invariant has it), the insertion
step of add_new_data takes the far-bucket branch, its scan finds no entry
of size ≥ the new size, and the observation is inserted into no bucket:
all three buckets' sizes, times and lengths are returned unchanged — the
observation is silently discarded by the insertion step.
-/
theorem C10_far_overflow_dropped (b1 b2 b3 : List (ℚ × ℚ)) (nd nt : ℚ)
    (hb3 : b3 ≠ []) (h2 : (b2.getD 0 (0, 0)).1 < nd)
    (h3 : ∀ p ∈ b3, p.1 < nd) :
    add_new_data_insert b1 b2 b3 nd nt = (b1, b2, b3) := by
  have hb3head : (b3.getD 0 (0, 0)).1 < nd := by
    cases b3 with
    | nil => exact absurd rfl hb3
    | cons hd tl => exact h3 hd (by simp)
  unfold add_new_data_insert
  rw [if_neg (not_le.mpr h2), if_neg (not_le.mpr hb3head),
    bucket_insert_beyond nt h3]

/-- Witness for C10 at a concrete input: size 50 is beyond the far bucket
[(9,40),(12,41)] and the state is returned unchanged. -/
theorem C10_far_overflow_dropped_witness :
    add_new_data_insert [(1,10)] [(5,30)] [(9,40),(12,41)] 50 7 =
      ([(1,10)], [(5,30)], [(9,40),(12,41)]) := by
  refine C10_far_overflow_dropped [(1,10)] [(5,30)] [(9,40),(12,41)] 50 7
    (by simp) (by norm_num) ?_
  intro p hp
  rcases List.mem_cons.mp hp with rfl | hp'
  · norm_num
  · rcases List.mem_cons.mp hp' with rfl | hp''
    · norm_num
    · simp at hp''

/-
get_data_num, lines 1802-1840: the page count is the byte size of the
main-fork file divided by 0x2000 = 8192 (integer division of st_size);
`pageItems i` abstracts PageGetMaxOffsetNumber applied to the raw page
fetched at zero-based index i (get_raw_from_rel reads page 0,
get_raw_from_rel_with_bias reads page total_page_num - 1).  Returns the
row estimate together with the page count that the source stores through
the page_num out-parameter.  For a zero-page file the source reads page
(0 - 1) = -1; the oracle is therefore indexed by ℤ.
-/
def get_data_num (fileSize : ℕ) (pageItems : ℤ → ℚ) : ℚ × ℕ :=
  let total_page_num : ℕ := fileSize / 0x2000
  if total_page_num = 1 then (pageItems 0, total_page_num)
  else (pageItems 0 * ((total_page_num : ℚ) - 1) +
          pageItems ((total_page_num : ℤ) - 1), total_page_num)

/--
C7.  The row-count estimate of the table statistics probe equals
firstPageItems * (totalPages - 1) + lastPageItems when the table has more
than one page and equals firstPageItems when it has exactly one page,
where totalPages is the main-fork byte size divided (integer division) by
the 8192-byte page size and firstPageItems / lastPageItems are the
maximum live-item counts read from the first and the last page.
-/
theorem C7_row_estimate (fileSize : ℕ) (pageItems : ℤ → ℚ) :
    (1 < fileSize / 8192 →
      (get_data_num fileSize pageItems).1 =
        pageItems 0 * ((fileSize / 8192 : ℕ) - 1 : ℚ) +
          pageItems ((fileSize / 8192 : ℕ) - 1)) ∧
    (fileSize / 8192 = 1 →
      (get_data_num fileSize pageItems).1 = pageItems 0) := by
  constructor
  · intro h
    have hne : fileSize / 8192 ≠ 1 := by omega
    have h0x : fileSize / 0x2000 = fileSize / 8192 := by norm_num
    simp only [get_data_num, h0x, if_neg hne]
  · intro h
    have h0x : fileSize / 0x2000 = fileSize / 8192 := by norm_num
    simp [get_data_num, h0x, h]

/-- Witness for C7 at a concrete input: a 3-page file (24576 bytes) with
i+5 live items on page i estimates 5 * 2 + 7 = 17 rows. -/
theorem C7_row_estimate_witness :
    (1 < 24576 / 8192) ∧
    (get_data_num 24576 (fun i => (i : ℚ) + 5)).1 = 17 := by
  refine ⟨by norm_num, ?_⟩
  rw [(C7_row_estimate 24576 (fun i => (i : ℚ) + 5)).1 (by norm_num)]
  norm_num

-- Hardware model constants, lines 311-397.
def PAGE_SIZE : ℕ := 8192
def UNIT_DATABASE_SIZE : ℕ := 1073741824
def USER_TOTAL_LUT : ℕ := 320000
def USER_TOTAL_FF : ℕ := 862374
def USER_TOTAL_URAM : ℕ := 120
def USER_TOTAL_BRAM : ℕ := 673
def USER_TOTAL_DSP : ℕ := 1959
def USER_CLOCK : ℕ := 170
def HOST_ADDRESSMAP_LATENCY : ℚ := 0.44
def HOST_SETKERNEL_LATENCY : ℚ := 0.08
def HOST_CREATEBUF_LATENCY_0 : ℚ := 56.415
def HOST_CREATEBUF_LATENCY_1 : ℚ := 12.845
def HOST_CREATEBUF_LATENCY_2 : ℚ := 4.085
def HOST_CREATEBUF_LATENCY_3 : ℚ := 3.095
def HOST_CREATEBUF_LATENCY_4 : ℚ := 2.842
def SMARTSSD_CORE_VAR_LUT : ℕ := 105998
def SMARTSSD_CORE_VAR_FF : ℕ := 92258
def SMARTSSD_CORE_VAR_URAM : ℕ := 32
def SMARTSSD_CORE_VAR_BRAM : ℕ := 15
def SMARTSSD_CORE_VAR_DSP : ℕ := 342
def SMARTSSD_CORE_CONST_LUT : ℕ := 10708
def SMARTSSD_CORE_CONST_FF : ℕ := 9750
def SMARTSSD_CORE_CONST_URAM : ℕ := 0
def SMARTSSD_CORE_CONST_BRAM : ℕ := 22
def SMARTSSD_CORE_CONST_DSP : ℕ := 10
def SMARTSSD_DATABASE_SIZE_STD_0 : ℕ := 536870912
def SMARTSSD_DATABASE_SIZE_STD_1 : ℕ := 107380736
def SMARTSSD_DATABASE_SIZE_STD_2 : ℕ := 10731520
def SMARTSSD_DATABASE_SIZE_STD_3 : ℕ := 1064960
def SMARTSSD_DATABASE_SIZE_STD_4 : ℕ := 98304
def SMARTSSD_SSD2FPGA_EFFBW_0 : ℚ := 3489660928
def SMARTSSD_SSD2FPGA_EFFBW_1 : ℚ := 3328599654.4
def SMARTSSD_SSD2FPGA_EFFBW_2 : ℚ := 2641404887.04
def SMARTSSD_SSD2FPGA_EFFBW_3 : ℚ := 1181116006.4
def SMARTSSD_SSD2FPGA_EFFBW_4 : ℚ := 493921239.04
def SMARTSSD_OUTBUF_SIZE_STD_0 : ℕ := 264240
def SMARTSSD_OUTBUF_SIZE_STD_1 : ℕ := 24576
def SMARTSSD_FPGA2HOST_EFFBW_0 : ℚ := 934155386.88
def SMARTSSD_FPGA2HOST_EFFBW_1 : ℚ := 311385128.96

-- Derived parallel core count, lines 1856-1874: for each of the five
-- resource dimensions floor((total - fixed) / perCore); the loop keeps
-- the minimum, starting from the LUT figure.
def user_corenum : ℕ :=
  let cands : List ℕ :=
    [(USER_TOTAL_LUT - SMARTSSD_CORE_CONST_LUT) / SMARTSSD_CORE_VAR_LUT,
     (USER_TOTAL_FF - SMARTSSD_CORE_CONST_FF) / SMARTSSD_CORE_VAR_FF,
     (USER_TOTAL_URAM - SMARTSSD_CORE_CONST_URAM) / SMARTSSD_CORE_VAR_URAM,
     (USER_TOTAL_BRAM - SMARTSSD_CORE_CONST_BRAM) / SMARTSSD_CORE_VAR_BRAM,
     (USER_TOTAL_DSP - SMARTSSD_CORE_CONST_DSP) / SMARTSSD_CORE_VAR_DSP]
  (cands.drop 1).foldl (fun m x => if x ≤ m then x else m) (cands.getD 0 0)

-- Per-(dataset, class) measured unit compute/DMA cycle counts,
-- lines 1976-2177.  Unmatched dataset or class leaves the zeros the
-- source initialized (the "undifined query/dataset" printf paths).
def user_unit_cycles (user_dataset : ℕ) (user_query_num : ℤ) : ℕ × ℕ :=
  if user_dataset = HIGGS then
    if user_query_num = Q1 then (5522, 703)
    else if user_query_num = Q2 then (5522, 703)
    else if user_query_num = Q3 then (5582, 518)
    else if user_query_num = Q4 then (5582, 518)
    else if user_query_num = Q5 then (5552, 701)
    else if user_query_num = Q6 then (5552, 701)
    else if user_query_num = Q7 then (5612, 521)
    else if user_query_num = Q8 then (5612, 521)
    else if user_query_num = Q9 then (5522, 703)
    else if user_query_num = Q10 then (28048, 5766)
    else if user_query_num = Q11 then (4591, 5534)
    else (0, 0)
  else if user_dataset = FOREST then
    if user_query_num = Q1 then (5215, 785)
    else if user_query_num = Q2 then (5215, 778503)
    else if user_query_num = Q3 then (5308, 527)
    else if user_query_num = Q4 then (5308, 527)
    else if user_query_num = Q5 then (5244, 782)
    else if user_query_num = Q6 then (5244, 782)
    else if user_query_num = Q7 then (5338, 535)
    else if user_query_num = Q8 then (5338, 535)
    else if user_query_num = Q9 then (5215, 785)
    else if user_query_num = Q10 then (14651, 5685)
    else if user_query_num = Q11 then (2903, 5500)
    else (0, 0)
  else if user_dataset = WILT then
    if user_query_num = Q1 then (5087, 884)
    else if user_query_num = Q2 then (5087, 884)
    else if user_query_num = Q3 then (5238, 536)
    else if user_query_num = Q4 then (5238, 536)
    else if user_query_num = Q5 then (5117, 882)
    else if user_query_num = Q6 then (5117, 882)
    else if user_query_num = Q7 then (5268, 534)
    else if user_query_num = Q8 then (5268, 534)
    else if user_query_num = Q9 then (5087, 882)
    else if user_query_num = Q10 then (7785, 5864)
    else if user_query_num = Q11 then (4512, 5623)
    else (0, 0)
  else if user_dataset = HABERMAN then
    if user_query_num = Q1 then (4335, 980)
    else if user_query_num = Q2 then (4335, 980)
    else if user_query_num = Q3 then (4507, 533)
    else if user_query_num = Q4 then (4507, 533)
    else if user_query_num = Q5 then (4365, 949)
    else if user_query_num = Q6 then (4365, 949)
    else if user_query_num = Q7 then (4537, 534)
    else if user_query_num = Q8 then (4537, 534)
    else if user_query_num = Q9 then (4335, 979)
    else if user_query_num = Q10 then (4019, 5356)
    else if user_query_num = Q11 then (4153, 5050)
    else (0, 0)
  else (0, 0)

-- Sum of f over the loop `for (i = 0; i < n; i++)`.
def iter_sum (n : ℕ) (f : ℕ → ℚ) : ℚ := ((List.range n).map f).sum

def iter_nsum (n : ℕ) (f : ℕ → ℕ) : ℕ := ((List.range n).map f).sum

/-
get_hw_expectation_time, lines 1842-2213.  `user_pagenum` is passed as a
double holding the whole page count; the (long long) cast on line 1877 is
the identity for it, so it is modelled as ℕ.  The out-buffer expression
(user_pagenum - host_iteration*131072*2)*4096/2 on line 1950 is computed
in double arithmetic and converted to size_t; it is modelled on ℤ with
Int.toNat for the conversion (nonnegative in every modelled use).  The
aggregate-only classes are Q3, Q4, Q7, Q8 (lines 1947, 1961, 2190).  The
factor variables of lines 1882-1884 are computed but never used and are
omitted.
-/
def get_hw_expectation_time (user_query_num : ℤ) (user_dataset : ℕ)
    (user_pagenum : ℕ) : ℚ :=
  let user_database_size : ℕ := (user_pagenum + 1) * 8 * 1024
  let host_iteration : ℕ := user_database_size / (UNIT_DATABASE_SIZE * 2)
  let page_iteration : ℕ :=
    (user_database_size - host_iteration * UNIT_DATABASE_SIZE * 2) / PAGE_SIZE
  -- host static latency, lines 1890-1893
  let host_total_addressmap_latency : ℚ :=
    HOST_ADDRESSMAP_LATENCY * (host_iteration + 1)
  let host_total_setkernel_latency : ℚ :=
    HOST_SETKERNEL_LATENCY * (host_iteration + 1)
  -- host dynamic latency (CreateBuffer), lines 1896-1920
  let user_lastdatabase_size : ℕ :=
    user_database_size - host_iteration * UNIT_DATABASE_SIZE * 2
  let host_createbuffer_latency : ℚ :=
    if user_lastdatabase_size ≤ SMARTSSD_DATABASE_SIZE_STD_4 then
      HOST_CREATEBUF_LATENCY_4
    else if SMARTSSD_DATABASE_SIZE_STD_4 < user_lastdatabase_size ∧
        user_lastdatabase_size ≤ SMARTSSD_DATABASE_SIZE_STD_3 then
      HOST_CREATEBUF_LATENCY_4 * user_lastdatabase_size / SMARTSSD_DATABASE_SIZE_STD_4
    else if SMARTSSD_DATABASE_SIZE_STD_3 < user_lastdatabase_size ∧
        user_lastdatabase_size ≤ SMARTSSD_DATABASE_SIZE_STD_2 then
      HOST_CREATEBUF_LATENCY_3 * user_lastdatabase_size / SMARTSSD_DATABASE_SIZE_STD_3
    else if SMARTSSD_DATABASE_SIZE_STD_2 < user_lastdatabase_size ∧
        user_lastdatabase_size ≤ SMARTSSD_DATABASE_SIZE_STD_1 then
      HOST_CREATEBUF_LATENCY_2 * user_lastdatabase_size / SMARTSSD_DATABASE_SIZE_STD_2
    else if SMARTSSD_DATABASE_SIZE_STD_1 < user_lastdatabase_size ∧
        user_lastdatabase_size ≤ SMARTSSD_DATABASE_SIZE_STD_0 then
      HOST_CREATEBUF_LATENCY_1 * user_lastdatabase_size / SMARTSSD_DATABASE_SIZE_STD_1
    else
      HOST_CREATEBUF_LATENCY_0 * user_lastdatabase_size / SMARTSSD_DATABASE_SIZE_STD_0
  let host_total_createbuffer_latency : ℚ :=
    (host_iteration : ℚ) * HOST_CREATEBUF_LATENCY_0 * UNIT_DATABASE_SIZE * 2 /
        SMARTSSD_DATABASE_SIZE_STD_0 +
      iter_sum (host_iteration + 1) (fun i =>
        if i = host_iteration ∧ host_iteration ≠ 0 then
          host_createbuffer_latency + 100
        else if i = host_iteration ∧ host_iteration = 0 then
          host_createbuffer_latency
        else 100)
  -- SSD-to-FPGA transfer, lines 1923-1943
  let user_ssd2fpga_effbw : ℚ :=
    if user_lastdatabase_size ≤ SMARTSSD_DATABASE_SIZE_STD_4 then
      SMARTSSD_SSD2FPGA_EFFBW_4
    else if SMARTSSD_DATABASE_SIZE_STD_4 < user_lastdatabase_size ∧
        user_lastdatabase_size ≤ SMARTSSD_DATABASE_SIZE_STD_3 then
      SMARTSSD_SSD2FPGA_EFFBW_4 * user_lastdatabase_size / SMARTSSD_DATABASE_SIZE_STD_4
    else if SMARTSSD_DATABASE_SIZE_STD_3 < user_lastdatabase_size ∧
        user_lastdatabase_size ≤ SMARTSSD_DATABASE_SIZE_STD_2 then
      SMARTSSD_SSD2FPGA_EFFBW_3 * user_lastdatabase_size / SMARTSSD_DATABASE_SIZE_STD_3
    else if SMARTSSD_DATABASE_SIZE_STD_2 < user_lastdatabase_size ∧
        user_lastdatabase_size ≤ SMARTSSD_DATABASE_SIZE_STD_1 then
      SMARTSSD_SSD2FPGA_EFFBW_2 * user_lastdatabase_size / SMARTSSD_DATABASE_SIZE_STD_2
    else if SMARTSSD_DATABASE_SIZE_STD_1 < user_lastdatabase_size ∧
        user_lastdatabase_size ≤ SMARTSSD_DATABASE_SIZE_STD_0 then
      SMARTSSD_SSD2FPGA_EFFBW_1 * user_lastdatabase_size / SMARTSSD_DATABASE_SIZE_STD_1
    else
      SMARTSSD_SSD2FPGA_EFFBW_0
  let host_total_ssd2fpga_latency : ℚ :=
    iter_sum (host_iteration + 1) (fun i =>
      if i = host_iteration then
        (user_lastdatabase_size / user_ssd2fpga_effbw) * 1000
      else ((UNIT_DATABASE_SIZE : ℚ) * 2 / SMARTSSD_SSD2FPGA_EFFBW_0) * 1000)
  -- FPGA-to-host transfer, lines 1946-1973
  let is_aggr : Prop := user_query_num = Q3 ∨ user_query_num = Q4 ∨
      user_query_num = Q7 ∨ user_query_num = Q8
  let user_outbuffer_size : ℕ :=
    if is_aggr then 4096
    else (((user_pagenum : ℤ) - (host_iteration : ℤ) * 131072 * 2) * 4096 / 2).toNat
  let user_fpga2host_effbw : ℚ :=
    if user_outbuffer_size ≤ SMARTSSD_OUTBUF_SIZE_STD_1 then
      SMARTSSD_FPGA2HOST_EFFBW_1
    else if SMARTSSD_OUTBUF_SIZE_STD_1 < user_outbuffer_size ∧
        user_outbuffer_size ≤ SMARTSSD_OUTBUF_SIZE_STD_0 then
      SMARTSSD_FPGA2HOST_EFFBW_1 * user_outbuffer_size / SMARTSSD_OUTBUF_SIZE_STD_1
    else SMARTSSD_FPGA2HOST_EFFBW_0
  let host_total_fpga2host_latency : ℚ :=
    if is_aggr then
      iter_sum (host_iteration + 1) (fun _ =>
        (user_outbuffer_size / user_fpga2host_effbw) * 1000)
    else
      iter_sum (host_iteration + 1) (fun i =>
        if i = host_iteration then
          (user_outbuffer_size / user_fpga2host_effbw) * 1000
        else ((131072 * 4096 : ℚ) / SMARTSSD_FPGA2HOST_EFFBW_0) * 1000)
  -- kernel compute/DMA cycles, lines 1976-2208
  let cyc := user_unit_cycles user_dataset user_query_num
  let user_total_com_cycle : ℕ :=
    iter_nsum (host_iteration + 1) (fun i =>
      if i = host_iteration then cyc.1 * page_iteration
      else cyc.1 * (UNIT_DATABASE_SIZE * 2) / PAGE_SIZE)
  let user_total_dma_cycle : ℕ :=
    if is_aggr then (host_iteration + 1) * cyc.2
    else
      iter_nsum (host_iteration + 1) (fun i =>
        if i = host_iteration then cyc.2 * page_iteration
        else cyc.2 * (UNIT_DATABASE_SIZE * 2) / PAGE_SIZE)
  let user_effective_com_cycle : ℕ := user_total_com_cycle / user_corenum
  let user_effective_dma_cycle : ℕ := user_total_dma_cycle / user_corenum
  let user_total_com_latency : ℚ :=
    ((user_effective_com_cycle : ℚ) / ((USER_CLOCK : ℚ) * 1000000)) * 1000
  let user_total_dma_latency : ℚ :=
    ((user_effective_dma_cycle : ℚ) / ((USER_CLOCK : ℚ) * 1000000)) * 1000
  let user_total_kernel_latency : ℚ := user_total_com_latency + user_total_dma_latency
  let user_kernel_overhead_latency : ℚ := user_total_kernel_latency * 0.041
  host_total_createbuffer_latency + host_total_addressmap_latency +
    host_total_ssd2fpga_latency + host_total_setkernel_latency +
    user_total_kernel_latency + user_kernel_overhead_latency +
    host_total_fpga2host_latency

/-
The single-page total stated by the spec (§4.4 and the §8 scenario): with
pageCount = 1 there are zero full host iterations, so the total is the
sum of one remainder-tier term per component — one address-mapping and
one kernel-setup charge, the smallest-tier buffer-creation constant (the
16384-byte remainder falls in the 0.0001GB tier), the remainder transfer
over the smallest-tier effective bandwidths, and compute/DMA cycles
scaled only by the 2-page remainder — with no full-iteration summand
anywhere.
-/
def hw_single_page_latency (user_query_num : ℤ) (user_dataset : ℕ) : ℚ :=
  let is_aggr : Prop := user_query_num = Q3 ∨ user_query_num = Q4 ∨
      user_query_num = Q7 ∨ user_query_num = Q8
  let user_outbuffer_size : ℕ := if is_aggr then 4096 else 2048
  let cyc := user_unit_cycles user_dataset user_query_num
  let com_lat : ℚ :=
    (((cyc.1 * 2) / user_corenum : ℕ) : ℚ) / ((USER_CLOCK : ℚ) * 1000000) * 1000
  let dma_lat : ℚ :=
    (((if is_aggr then cyc.2 else cyc.2 * 2) / user_corenum : ℕ) : ℚ) /
      ((USER_CLOCK : ℚ) * 1000000) * 1000
  let kernel : ℚ := com_lat + dma_lat
  HOST_CREATEBUF_LATENCY_4 + HOST_ADDRESSMAP_LATENCY +
    ((16384 : ℚ) / SMARTSSD_SSD2FPGA_EFFBW_4) * 1000 + HOST_SETKERNEL_LATENCY +
    kernel + kernel * 0.041 +
    ((user_outbuffer_size : ℚ) / SMARTSSD_FPGA2HOST_EFFBW_1) * 1000

/--
C8.  For pageCount = 1 and any query class and dataset category, the
hardware cost estimate computes zero full host iterations and the
returned total latency is exactly the remainder-only sum
hw_single_page_latency: every summand (address mapping, kernel setup,
buffer creation, storage-to-accelerator transfer, accelerator-to-host
transfer letting the 2048- or 4096-byte output buffer pick the small
bandwidth tier, and the compute/DMA cycles scaled by the 2-page
remainder) uses only the remainder-size tier constants, with no
full-iteration contribution.
-/
theorem C8_single_page_no_full_iterations (q : ℤ) (d : ℕ) :
    get_hw_expectation_time q d 1 = hw_single_page_latency q d := by
  by_cases ha : q = Q3 ∨ q = Q4 ∨ q = Q7 ∨ q = Q8 <;>
    · simp only [get_hw_expectation_time, hw_single_page_latency, iter_sum,
        iter_nsum, ha, UNIT_DATABASE_SIZE, PAGE_SIZE, SMARTSSD_DATABASE_SIZE_STD_0,
        SMARTSSD_DATABASE_SIZE_STD_1, SMARTSSD_DATABASE_SIZE_STD_2,
        SMARTSSD_DATABASE_SIZE_STD_3, SMARTSSD_DATABASE_SIZE_STD_4,
        SMARTSSD_OUTBUF_SIZE_STD_0, SMARTSSD_OUTBUF_SIZE_STD_1,
        List.range_succ, List.range_zero, List.map_append, List.map_cons,
        List.map_nil, List.sum_append, List.sum_cons, List.sum_nil,
        List.nil_append, Int.toNat_ofNat]
      norm_num [show Int.toNat 2048 = 2048 from rfl]

/-
polyval, lines 2621-2634: the nested loops accumulate
exec_coef[EXEC_ORDER - j] * new_data^j for j = 3, 2, 1, 0, i.e. the cubic
with coefficients listed highest degree first.
-/
def polyval (new_data : ℚ) (exec_coef : List ℚ) : ℚ :=
  exec_coef.getD 0 0 * new_data ^ 3 + exec_coef.getD 1 0 * new_data ^ 2 +
    exec_coef.getD 2 0 * new_data + exec_coef.getD 3 0

-- CPU cost prediction, lines 2438-2444: the bucket is picked by comparing
-- the size (in thousands of rows) against the first stored size of the
-- mid bucket (data_num2[query_num][0]) and of the far bucket.
def cpu_predict (ndp data2_head data3_head : ℚ)
    (exec_coef1 exec_coef2 exec_coef3 : List ℚ) : ℚ :=
  if ndp ≤ data2_head then polyval ndp exec_coef1
  else if ndp ≤ data3_head then polyval ndp exec_coef2
  else polyval ndp exec_coef3

inductive Backend where
  | CPU
  | HW
deriving DecidableEq

/-
The decision block of sw_stack_for_hw, lines 2434-2473: a decision is
produced only when all three buckets of the class hold strictly more than
ADJ_MIN_DATANUM = 3 samples (line 2435); otherwise the source prints
"not enough data gathered" and decides nothing.  When it decides, it
predicts cpuMs at new_data_num / 1000, computes hwMs with
get_hw_expectation_time, picks CPU iff cpuMs < hwMs, and both report
branches print the ratio cpuMs / hwMs (lines 2464-2468).
-/
def sw_decision (query_num : ℤ) (dataset_num page_num : ℕ)
    (data1_len data2_len data3_len : ℕ) (data2_head data3_head : ℚ)
    (exec_coef1 exec_coef2 exec_coef3 : List ℚ)
    (new_data_num : ℚ) : Option (Backend × ℚ) :=
  if ADJ_MIN_DATANUM < data1_len ∧ ADJ_MIN_DATANUM < data2_len ∧
      ADJ_MIN_DATANUM < data3_len then
    let new_data_num_predict := new_data_num / 1000
    let cpu := cpu_predict new_data_num_predict data2_head data3_head
      exec_coef1 exec_coef2 exec_coef3
    let hw := get_hw_expectation_time query_num dataset_num page_num
    some (if cpu < hw then Backend.CPU else Backend.HW, cpu / hw)
  else none

/--
C4 counterexample.  With bucket lengths (3, 5, 6) no bucket has fewer
than the minimum sample count 3, so the claim says a decision is made;
the source requires strictly more than ADJ_MIN_DATANUM = 3 samples in
every bucket and makes no decision here.
-/
theorem C4_counterexample :
    sw_decision Q1 HIGGS 1 3 5 6 1 2 [] [] [] 7 = none ∧
    ¬ ((3 : ℕ) < ADJ_MIN_DATANUM ∨ (5 : ℕ) < ADJ_MIN_DATANUM ∨
        (6 : ℕ) < ADJ_MIN_DATANUM) := by
  constructor
  · simp [sw_decision, ADJ_MIN_DATANUM]
  · simp [ADJ_MIN_DATANUM]

/--
C4 amended.  No backend decision is made exactly when at least one of the
class's three buckets holds at most ADJ_MIN_DATANUM = 3 samples (the
source demands strictly more than 3 in every bucket, not "at least 3");
in every other case the engine computes cpuMs = predict(class,
rows/1000), hwMs = estimateHardware(class, datasetCategory, pageCount),
chooses the backend with the lower predicted time (hardware on ties) and
reports the ratio cpuMs / hwMs.
-/
theorem C4_amended_decision (query_num : ℤ) (dataset_num page_num : ℕ)
    (data1_len data2_len data3_len : ℕ) (data2_head data3_head : ℚ)
    (exec_coef1 exec_coef2 exec_coef3 : List ℚ) (new_data_num : ℚ) :
    (sw_decision query_num dataset_num page_num data1_len data2_len data3_len
        data2_head data3_head exec_coef1 exec_coef2 exec_coef3 new_data_num = none ↔
      (data1_len ≤ ADJ_MIN_DATANUM ∨ data2_len ≤ ADJ_MIN_DATANUM ∨
        data3_len ≤ ADJ_MIN_DATANUM)) ∧
    (ADJ_MIN_DATANUM < data1_len → ADJ_MIN_DATANUM < data2_len →
      ADJ_MIN_DATANUM < data3_len →
      sw_decision query_num dataset_num page_num data1_len data2_len data3_len
          data2_head data3_head exec_coef1 exec_coef2 exec_coef3 new_data_num =
        some
          (if cpu_predict (new_data_num / 1000) data2_head data3_head
                exec_coef1 exec_coef2 exec_coef3 <
              get_hw_expectation_time query_num dataset_num page_num then
            Backend.CPU
          else Backend.HW,
          cpu_predict (new_data_num / 1000) data2_head data3_head
              exec_coef1 exec_coef2 exec_coef3 /
            get_hw_expectation_time query_num dataset_num page_num)) := by
  by_cases hcond : ADJ_MIN_DATANUM < data1_len ∧ ADJ_MIN_DATANUM < data2_len ∧
      ADJ_MIN_DATANUM < data3_len
  · constructor
    · simp only [sw_decision, if_pos hcond]
      constructor
      · intro h; exact absurd h (by simp)
      · intro h; exact absurd h (by omega)
    · intro _ _ _
      simp only [sw_decision, if_pos hcond]
  · constructor
    · simp only [sw_decision, if_neg hcond]
      constructor
      · intro _; omega
      · intro _; trivial
    · intro h1 h2 h3
      exact absurd ⟨h1, h2, h3⟩ hcond

/-- Witness for the amended C4 theorem at a concrete input (all three
bucket lengths 4 > 3): the decision is produced in the stated form. -/
theorem C4_amended_decision_witness :
    sw_decision Q1 HIGGS 1 4 4 4 1 2 [0,0,0,5] [0,0,0,6] [0,0,0,7] 7 =
      some
        (if cpu_predict (7 / 1000) 1 2 [0,0,0,5] [0,0,0,6] [0,0,0,7] <
            get_hw_expectation_time Q1 HIGGS 1 then
          Backend.CPU
        else Backend.HW,
        cpu_predict (7 / 1000) 1 2 [0,0,0,5] [0,0,0,6] [0,0,0,7] /
          get_hw_expectation_time Q1 HIGGS 1) := by
  exact (C4_amended_decision Q1 HIGGS 1 4 4 4 1 2 [0,0,0,5] [0,0,0,6]
    [0,0,0,7] 7).2 (by decide) (by decide) (by decide)

/-
Matrix helpers for polyfit, lines 2636-2694: a matrix is a list of rows.
createTranspose is lines 2636-2647; createProduct (lines 2649-2671)
computes product[i,j] = sum over k of left[i,k] * right[k,j].
-/
def dot_product : List ℚ → List ℚ → ℚ
  | a :: as, b :: bs => a * b + dot_product as bs
  | _, _ => 0

def createTranspose (m : List (List ℚ)) : List (List ℚ) :=
  (List.range (m.headD []).length).map (fun c => m.map (fun row => row.getD c 0))

def createProduct (l r : List (List ℚ)) : List (List ℚ) :=
  l.map (fun row => (createTranspose r).map (fun col => dot_product row col))

/-
One column of the Gauss-Jordan elimination loop of polyfit (lines
2565-2574): every row r ≠ c (the pivot row) gets pivotRow * factor
subtracted entrywise, factor = row[c] / pivot, and the right-hand side
entry is updated alongside.  `r` is the index of the first row of the
remaining lists.
-/
def elim_rows (c : ℕ) (prVal : ℚ) (pivotRow : List ℚ) (pivotB : ℚ) :
    ℕ → List (List ℚ) → List ℚ → List (List ℚ) × List ℚ
  | _, [], bs => ([], bs)
  | _, rows, [] => (rows, [])
  | r, row :: rows, bv :: bs =>
      let rest := elim_rows c prVal pivotRow pivotB (r + 1) rows bs
      if r = c then (row :: rest.1, bv :: rest.2)
      else
        let factor := row.getD c 0 / prVal
        ((row.zipWith (fun a p => a - p * factor) pivotRow) :: rest.1,
          (bv - pivotB * factor) :: rest.2)

-- The pivoting loop, lines 2556-2575: a zero diagonal pivot sets
-- rVal = -4 and breaks out; otherwise column c is eliminated from all
-- other rows.  `fuel` is the number of columns still to process.
def gauss_run : ℕ → ℕ → List (List ℚ) → List ℚ → ℤ × List (List ℚ) × List ℚ
  | 0, _, A, b => (0, A, b)
  | fuel + 1, c, A, b =>
      let prVal := (A.getD c []).getD c 0
      if prVal = 0 then (-4, A, b)
      else
        let s := elim_rows c prVal (A.getD c []) (b.getD c 0) 0 A b
        gauss_run fuel (c + 1) s.1 s.2

/-
The normalization loop, lines 2576-2582: it runs over every column even
when the pivoting loop broke with rVal = -4, dividing the diagonal entry
A[c][c] (only that entry) and the right-hand side entry b[c] by the
diagonal value.  Divisions by a zero diagonal — which do occur on the
rVal = -4 path — yield 0 in the ℚ model where C produces NaN/inf; no
settled statement depends on those payloads, only on whether the cells
are written.
-/
def normalize_run : ℕ → ℕ → List (List ℚ) → List ℚ → List (List ℚ) × List ℚ
  | 0, _, A, b => (A, b)
  | fuel + 1, c, A, b =>
      let prVal := (A.getD c []).getD c 0
      let A' := A.set c ((A.getD c []).set c (prVal / prVal))
      let b' := b.set c (b.getD c 0 / prVal)
      normalize_run fuel (c + 1) A' b'

structure polyfit_result where
  rVal : ℤ
  coefficientResults : List ℚ
  wrote : Bool
deriving DecidableEq

/-
polyfit, lines 2500-2596.  The model takes the caller's coefficient
array (coefficientResults) explicitly and returns the error code, the
array as the caller sees it afterwards, and whether the copy loop at
lines 2584-2586 executed.  The early returns for NULL pointers (-1) and
allocation failures (-3) have no counterpart in the model; -2 (fewer
points than coefficients) returns before any matrix is formed and leaves
the caller's array untouched.  On the zero-pivot path the function sets
rVal = -4, breaks out of the elimination loop, and then still runs the
normalization loop and the final copy into coefficientResults.
-/
def polyfit (xValues yValues : List ℚ) (coefficientCount : ℕ)
    (coefficientResults : List ℚ) : polyfit_result :=
  if xValues.length < coefficientCount then
    ⟨-2, coefficientResults, false⟩
  else
    let degree := coefficientCount - 1
    let A := xValues.map (fun x =>
      (List.range coefficientCount).map (fun c => x ^ (degree - c)))
    let AT := createTranspose A
    let ATA := createProduct AT A
    let ATB := (createProduct AT (yValues.map (fun y => [y]))).map
      (fun row => row.getD 0 0)
    let g := gauss_run coefficientCount 0 ATA ATB
    let nrm := normalize_run coefficientCount 0 g.2.1 g.2.2
    ⟨g.1, nrm.2.take coefficientCount, true⟩

theorem gauss_run_rval : ∀ (fuel c : ℕ) (A : List (List ℚ)) (b : List ℚ),
    (gauss_run fuel c A b).1 = 0 ∨ (gauss_run fuel c A b).1 = -4 := by
  intro fuel
  induction fuel with
  | zero => intro c A b; left; rfl
  | succ f ih =>
      intro c A b
      simp only [gauss_run]
      split
      · right; rfl
      · exact ih (c + 1) _ _

/--
C2 counterexample.  With all four x-values 0, the normal-equation matrix
AᵗA has a zero in the (0,0) diagonal position, so the solve hits an
exactly-zero pivot: polyfit returns -4 as claimed, but the caller's
coefficient array, previously [7,7,7,7], is overwritten anyway — the
normalization and copy loops run after the break.  (In C the first three
cells become NaN = 0/0 and the last becomes exactly 4/4 = 1.0; the model
writes 0 for the divisions by zero, and the refutation rests on the last
cell, 1 ≠ 7, which C computes exactly.)
-/
theorem C2_counterexample :
    (polyfit [0,0,0,0] [1,1,1,1] 4 [7,7,7,7]).rVal = -4 ∧
    (polyfit [0,0,0,0] [1,1,1,1] 4 [7,7,7,7]).coefficientResults = [0,0,0,1] ∧
    ([0,0,0,1] : List ℚ) ≠ [7,7,7,7] := by
  refine ⟨?_, ?_, by norm_num⟩ <;> with_unfolding_all decide

/--
C2 amended.  On an exactly-zero pivot polyfit does return the nonzero
error code -4, but the caller-supplied coefficient array does NOT retain
its previous contents: whenever the solve phase is reached the copy loop
runs and overwrites the array (with partially-eliminated values, NaN in C
where the zero pivot was divided).  The previous contents are retained
only on the early-return path with fewer points than coefficients
(error code -2; likewise for the unmodelled NULL-pointer and allocation
failures).
-/
theorem C2_amended_polyfit (xValues yValues : List ℚ) (coefficientCount : ℕ)
    (prev : List ℚ) :
    (xValues.length < coefficientCount →
      polyfit xValues yValues coefficientCount prev = ⟨-2, prev, false⟩) ∧
    (¬ xValues.length < coefficientCount →
      (polyfit xValues yValues coefficientCount prev).wrote = true ∧
      ((polyfit xValues yValues coefficientCount prev).rVal = 0 ∨
        (polyfit xValues yValues coefficientCount prev).rVal = -4)) := by
  constructor
  · intro h; simp [polyfit, h]
  · intro h
    constructor
    · simp [polyfit, h]
    · simp only [polyfit, if_neg h]
      exact gauss_run_rval _ _ _ _

/-- Witness for the amended C2 theorem at a concrete input: one point,
four coefficients, error -2, array [9,9,9,9] retained. -/
theorem C2_amended_polyfit_witness :
    (([1] : List ℚ).length < 4) ∧
    polyfit [1] [1] 4 [9,9,9,9] = ⟨-2, [9,9,9,9], false⟩ := by
  exact ⟨by norm_num, (C2_amended_polyfit [1] [1] 4 [9,9,9,9]).1 (by norm_num)⟩

/-
polyval_multi, lines 2598-2619: evaluates the fitted cubic at every
stored size (the exec_time parameter of the C function is unused).
-/
def polyval_multi (data_num : List ℚ) (exec_coef : List ℚ) : List ℚ :=
  data_num.map (fun x => polyval x exec_coef)

/-
get_avg_error, lines 2706-2743: fits the bucket with polyfit
(EXEC_ORDER + 1 = 4 coefficients), evaluates the fit at every stored
size, and accumulates total absolute error and total percentage error,
skipping index 0 when first_flag is false; both totals are divided by
the full data_len (lines 2737-2738).  When polyfit fails (fewer than 4
points) the source only prints a message and proceeds to evaluate the
polynomial with the coefficient buffer it allocated at the call site —
a freshly malloc'd array that polyfit's -2 path never writes, so the C
computation continues on indeterminate memory.  The model passes a
zero-filled buffer for it, the de-facto content of a fresh small
allocation; the C3 discussion states explicitly where this matters.
Returns (error, error_rate, exec_coef).
-/
def get_avg_error (data_num exec_time : List ℚ) (first_flag : Bool) :
    ℚ × ℚ × List ℚ :=
  let data_len := data_num.length
  let fit := polyfit data_num exec_time (EXEC_ORDER + 1) [0, 0, 0, 0]
  let assume_result := polyval_multi data_num fit.coefficientResults
  let total_error := iter_sum data_len (fun j =>
    if j = 0 ∧ first_flag = false then 0
    else |exec_time.getD j 0 - assume_result.getD j 0|)
  let total_error_rate := iter_sum data_len (fun j =>
    if j = 0 ∧ first_flag = false then 0
    else |exec_time.getD j 0 - assume_result.getD j 0| / exec_time.getD j 0 * 100)
  (total_error / data_len, total_error_rate / data_len, fit.coefficientResults)

/-
The running state of one adjust_range scan (lines 2788-2818 for phase 1,
2995-3026 for phase 2): the retained ("min") error rates and bucket
lengths, and the working buffers.  The source additionally retains the
min absolute errors and the fitted coefficients of the accepted state;
no settled claim mentions them and they are not carried.  The rollback
blocks of the source always immediately precede a break, so the working
buffers they modify are never read again inside the scan; the model
therefore keeps the pre-move buffers on a rejected move instead of
performing the shift-and-restore (note the source's rollback is not an
exact inverse - it writes the left bucket's last element into
right[0] - and after a post-accept guard break it leaves the working
buffers one accepted move behind the reported min lengths; the returned
sample arrays are not part of any claim settled here).
-/
structure adj_state where
  min_left_error_rate : ℚ
  min_right_error_rate : ℚ
  min_left_len : ℕ
  min_right_len : ℕ
  left_num : List ℚ
  left_time : List ℚ
  right_num : List ℚ
  right_time : List ℚ

/-
The accept/reject decision shared by the four branches at lines
2845-2943 (phase 1) and 3053-3150 (phase 2): accept when both error
rates improve; stop when both worsen; otherwise accept exactly when the
improvement on one side strictly exceeds the worsening on the other.
-/
def adjust_accept (min_left_rate min_right_rate left_rate right_rate : ℚ) : Bool :=
  if left_rate < min_left_rate ∧ right_rate < min_right_rate then true
  else if min_left_rate < left_rate ∧ min_right_rate < right_rate then false
  else if left_rate < min_left_rate ∧ min_right_rate < right_rate then
    decide (right_rate - min_right_rate < min_left_rate - left_rate)
  else decide (left_rate - min_left_rate < min_right_rate - right_rate)

/-
One iteration of the phase-1 scan (lines 2820-2978).  The move appends
min_right[1] — the second element, not the head — to the left buffer
(lines 2821-2822) and then deletes min_right[0] by shifting (lines
2824-2830; the vacated top slot is zeroed, which is why List.getD with
default 0 models the source's reads of cells past the live length).
Both buckets are refit; an accepted move updates the retained state and
is followed by the early-stop checks of lines 2944-2977, which compare
the phase-1 rates against 5 and the phase-1 lengths against 4 but do not
undo the already-updated min lengths; a rejected move ends the scan.
-/
def phase1_step (first_flag : Bool) (st : adj_state) : adj_state × Bool :=
  let left_num' := st.left_num ++ [st.right_num.getD 1 0]
  let left_time' := st.left_time ++ [st.right_time.getD 1 0]
  let right_num' := st.right_num.drop 1
  let right_time' := st.right_time.drop 1
  let l := get_avg_error left_num' left_time' first_flag
  let r := get_avg_error right_num' right_time' false
  if adjust_accept st.min_left_error_rate st.min_right_error_rate l.2.1 r.2.1 then
    let st' : adj_state := ⟨l.2.1, r.2.1, left_num'.length, right_num'.length,
      left_num', left_time', right_num', right_time'⟩
    if st'.min_left_error_rate < 5 ∨ st'.min_right_error_rate < 5 then (st', false)
    else if st'.min_left_len < 4 ∨ st'.min_right_len < 4 then (st', false)
    else (st', true)
  else (st, false)

def phase1_run (first_flag : Bool) : ℕ → adj_state → adj_state
  | 0, st => st
  | fuel + 1, st =>
      let s := phase1_step first_flag st
      if s.2 then phase1_run first_flag fuel s.1 else s.1

/-
One iteration of the phase-2 scan (lines 3028-3186).  The move prepends
the left bucket's second-to-last element min_left[left_len - 2] to the
right buffer (lines 3029-3035) and removes the left bucket's last
element (lines 3036-3038).  The early-stop checks of lines 3152-3185
read the PHASE-1 variables min_left_error_rate_1 / min_right_error_rate_1
and min_left_len_1 / min_right_len_1, not the phase-2 ones — the `p1`
parameter below — so the phase-2 scan is stopped or allowed to continue
based on the other scan's outcome.
-/
def phase2_step (first_flag : Bool) (p1 : adj_state) (st : adj_state) :
    adj_state × Bool :=
  let right_num' := st.left_num.getD (st.left_num.length - 2) 0 :: st.right_num
  let right_time' := st.left_time.getD (st.left_time.length - 2) 0 :: st.right_time
  let left_num' := st.left_num.dropLast
  let left_time' := st.left_time.dropLast
  let l := get_avg_error left_num' left_time' first_flag
  let r := get_avg_error right_num' right_time' false
  if adjust_accept st.min_left_error_rate st.min_right_error_rate l.2.1 r.2.1 then
    let st' : adj_state := ⟨l.2.1, r.2.1, left_num'.length, right_num'.length,
      left_num', left_time', right_num', right_time'⟩
    if p1.min_left_error_rate < 5 ∨ p1.min_right_error_rate < 5 then (st', false)
    else if p1.min_left_len < 4 ∨ p1.min_right_len < 4 then (st', false)
    else (st', true)
  else (st, false)

def phase2_run (first_flag : Bool) (p1 : adj_state) : ℕ → adj_state → adj_state
  | 0, st => st
  | fuel + 1, st =>
      let s := phase2_step first_flag p1 st
      if s.2 then phase2_run first_flag p1 fuel s.1 else s.1

structure adjust_result where
  left_len : ℕ
  right_len : ℕ
  left_error_rate : ℚ
  right_error_rate : ℚ
deriving DecidableEq

/-
adjust_range, lines 2745-3255: fit both buckets as given (the "def"
state), run the phase-1 scan (up to def_data2_len moves of the right
bucket's boundary samples into the left bucket) and the phase-2 scan (up
to def_data1_len moves the other way, both scans starting from the def
state), and return the scan whose retained combined error rate is lower
(lines 3204-3252).  The result carries the reported bucket lengths and
error rates (the source also returns the sample arrays and coefficients
through out-parameters; see the adj_state comment).  The initial
"too small data" check at line 2757 only prints and is omitted.
-/
def adjust_range (data_num1 exec_time1 data_num2 exec_time2 : List ℚ)
    (first_flag : Bool) : adjust_result :=
  let dl := get_avg_error data_num1 exec_time1 first_flag
  let dr := get_avg_error data_num2 exec_time2 false
  let init : adj_state := ⟨dl.2.1, dr.2.1, data_num1.length, data_num2.length,
    data_num1, exec_time1, data_num2, exec_time2⟩
  let p1 := phase1_run first_flag data_num2.length init
  let p2 := phase2_run first_flag p1 data_num1.length init
  if p1.min_left_error_rate + p1.min_right_error_rate <
      p2.min_left_error_rate + p2.min_right_error_rate then
    ⟨p1.min_left_len, p1.min_right_len,
      p1.min_left_error_rate, p1.min_right_error_rate⟩
  else
    ⟨p2.min_left_len, p2.min_right_len,
      p2.min_left_error_rate, p2.min_right_error_rate⟩

theorem adjust_accept_lt {mL mR l r : ℚ}
    (h : adjust_accept mL mR l r = true) : l + r < mL + mR := by
  unfold adjust_accept at h
  by_cases h1 : l < mL ∧ r < mR
  · obtain ⟨a, b⟩ := h1; linarith
  · rw [if_neg h1] at h
    by_cases h2 : mL < l ∧ mR < r
    · rw [if_pos h2] at h; exact absurd h (by simp)
    · rw [if_neg h2] at h
      by_cases h3 : l < mL ∧ mR < r
      · rw [if_pos h3] at h
        have hd := of_decide_eq_true h
        obtain ⟨a, b⟩ := h3
        linarith
      · rw [if_neg h3] at h
        have hd := of_decide_eq_true h
        linarith

theorem phase1_step_le (first_flag : Bool) (st : adj_state) :
    (phase1_step first_flag st).1.min_left_error_rate +
      (phase1_step first_flag st).1.min_right_error_rate ≤
    st.min_left_error_rate + st.min_right_error_rate := by
  simp only [phase1_step]
  split_ifs with hacc h5 h4
  · exact le_of_lt (adjust_accept_lt hacc)
  · exact le_of_lt (adjust_accept_lt hacc)
  · exact le_of_lt (adjust_accept_lt hacc)
  · exact le_refl _

theorem phase1_run_le (first_flag : Bool) :
    ∀ (fuel : ℕ) (st : adj_state),
      (phase1_run first_flag fuel st).min_left_error_rate +
        (phase1_run first_flag fuel st).min_right_error_rate ≤
      st.min_left_error_rate + st.min_right_error_rate := by
  intro fuel
  induction fuel with
  | zero => intro st; exact le_refl _
  | succ f ih =>
      intro st
      simp only [phase1_run]
      split
      · exact le_trans (ih _) (phase1_step_le first_flag st)
      · exact phase1_step_le first_flag st

theorem phase2_step_le (first_flag : Bool) (p1 st : adj_state) :
    (phase2_step first_flag p1 st).1.min_left_error_rate +
      (phase2_step first_flag p1 st).1.min_right_error_rate ≤
    st.min_left_error_rate + st.min_right_error_rate := by
  simp only [phase2_step]
  split_ifs with hacc h5 h4
  · exact le_of_lt (adjust_accept_lt hacc)
  · exact le_of_lt (adjust_accept_lt hacc)
  · exact le_of_lt (adjust_accept_lt hacc)
  · exact le_refl _

theorem phase2_run_le (first_flag : Bool) (p1 : adj_state) :
    ∀ (fuel : ℕ) (st : adj_state),
      (phase2_run first_flag p1 fuel st).min_left_error_rate +
        (phase2_run first_flag p1 fuel st).min_right_error_rate ≤
      st.min_left_error_rate + st.min_right_error_rate := by
  intro fuel
  induction fuel with
  | zero => intro st; exact le_refl _
  | succ f ih =>
      intro st
      simp only [phase2_run]
      split
      · exact le_trans (ih _) (phase2_step_le first_flag p1 st)
      · exact phase2_step_le first_flag p1 st

/--
C3 counterexample.  Both buckets enter with at least 4 samples (4 and 5),
yet adjust_range reports a left bucket of length 3 < 4.  Trace: phase 1
accepts one move (the 4 remaining right samples fit exactly, right rate
0) and stops at the rate < 5 check; phase 2's first move shrinks the
left bucket to 3 samples, whose polyfit fails (-2) so its error rate is
computed from the never-written coefficient buffer (zeros in the model,
indeterminate malloc'd memory in C, giving rate 100), the move is
accepted because the right bucket's improvement outweighs it, and the
scan then stops at the early-stop check - which reads the PHASE-1 rates
(source lines 3152-3185) - with the accepted min lengths (3, 6) kept.
Phase 2's combined rate beats phase 1's, so the (3, 6) partition is
returned.
-/
theorem C3_counterexample :
    (([1, 2, 3, 4] : List ℚ).length = 4 ∧
      ([5, 6, 7, 8, 9] : List ℚ).length = 5) ∧
    (adjust_range [1, 2, 3, 4] [1, 2, 3, 4]
        [5, 6, 7, 8, 9] [246, 564, 36, 7, 124] true).left_len = 3 ∧
    (adjust_range [1, 2, 3, 4] [1, 2, 3, 4]
        [5, 6, 7, 8, 9] [246, 564, 36, 7, 124] true).right_len = 6 := by
  refine ⟨⟨rfl, rfl⟩, ?_, ?_⟩ <;> with_unfolding_all decide

/--
C3 amended.  The length half of the claim fails (a bucket entering with
4 samples can be reported with 3, see the counterexample); what holds is
the error half, with no length hypothesis at all: for every pair of
adjacent buckets and both scan directions independently, the retained
combined error rate never exceeds the combined error rate of the initial
fit of the unmodified buckets — every accepted move strictly decreases
the combined rate — and hence the partition adjust_range returns has
combined mean percentage error at most the initial fit's.
-/
theorem C3_amended_error_monotone
    (data_num1 exec_time1 data_num2 exec_time2 : List ℚ) (first_flag : Bool) :
    ((adjust_range data_num1 exec_time1 data_num2 exec_time2 first_flag).left_error_rate +
      (adjust_range data_num1 exec_time1 data_num2 exec_time2 first_flag).right_error_rate ≤
      (get_avg_error data_num1 exec_time1 first_flag).2.1 +
        (get_avg_error data_num2 exec_time2 false).2.1) ∧
    (∀ fuel : ℕ, ∀ st : adj_state,
      (phase1_run first_flag fuel st).min_left_error_rate +
          (phase1_run first_flag fuel st).min_right_error_rate ≤
        st.min_left_error_rate + st.min_right_error_rate) ∧
    (∀ fuel : ℕ, ∀ p1 st : adj_state,
      (phase2_run first_flag p1 fuel st).min_left_error_rate +
          (phase2_run first_flag p1 fuel st).min_right_error_rate ≤
        st.min_left_error_rate + st.min_right_error_rate) := by
  refine ⟨?_, phase1_run_le first_flag, fun fuel p1 st => phase2_run_le first_flag p1 fuel st⟩
  simp only [adjust_range]
  split_ifs with hw
  · exact phase1_run_le first_flag _ _
  · exact phase2_run_le first_flag _ _ _
